import Mathlib

/-!
Verification development for the Barve Guruji chat application
(`app.js`, feature-complete variant: interpreter stage + Guruji stage +
Marathi enforcement fallback, `MAX_HISTORY = 18`).

The JavaScript source is shallowly embedded:

* The IST date grounding helpers (`getISTDateParts`, `istDateISO`,
  `addDaysIST`) rely on `Intl.DateTimeFormat` with time zone
  `Asia/Kolkata` (fixed offset +05:30, no DST) and on ECMAScript `Date`
  UTC arithmetic.  Both are modelled by proleptic-Gregorian civil-date
  conversion of a millisecond instant, exactly as the ECMAScript
  specification defines them.  Instants are `Int` milliseconds since the
  Unix epoch; `/` and `%` on `Int` in Lean are Euclidean and hence agree
  with floor division for the positive constant divisors used here.
* JSON values are modelled by an inductive `JVal`; `undefined` (from
  JavaScript optional chaining and absent fields) is `Option.none`.
* Network calls (`geminiFetch`) are modelled by an oracle value
  `FetchResult` describing the outcome of the HTTP exchange; the session
  log, the pending-retry slot and the emitted toasts are threaded
  explicitly through the turn functions.
-/

namespace BarveGuruji

/-! ## A bounded checker with logarithmic evaluation depth -/

/-- `allBelow p d lo len` checks `p` on every index in `[lo, lo+len)` by
binary splitting with fuel `d` (depth `d` covers `len ≤ 2 ^ d`). -/
def allBelow (p : Nat → Bool) : Nat → Nat → Nat → Bool
  | 0, lo, len => len == 0 || (len == 1 && p lo)
  | d+1, lo, len =>
    if len ≤ 1 then len == 0 || (len == 1 && p lo)
    else allBelow p d lo (len / 2) && allBelow p d (lo + len / 2) (len - len / 2)

/-! ## Civil calendar arithmetic (model of ECMAScript `Date` / `Intl`)

The day-number/civil-date conversion below is the standard
proleptic-Gregorian algorithm over 400-year eras (146097 days each);
it is the mathematical content of ECMAScript `MakeDay` and of
`Intl.DateTimeFormat(..., { timeZone: "Asia/Kolkata" })` part
extraction used by the source. -/

/-- Leap-corrected day count within an era: day-of-era minus the
quadrennial corrections.  `yoeF doe = ncor doe / 365` is the year of
era of day-of-era `doe`. -/
def ncor (doe : Nat) : Nat := doe - doe / 1460 + doe / 36524 - doe / 146096

/-- Year of era (0..399) of a day of era, by the closed formula. -/
def yoeF (doe : Nat) : Nat := ncor doe / 365

/-- Days before (March-based) year-of-era `y` within the era. -/
def fdays (y : Nat) : Nat := 365 * y + y / 4 - y / 100

/-- 1 when the March-based year-of-era `y` has 366 days (its trailing
February is leap), else 0. -/
def leapBitYoe (y : Nat) : Nat :=
  if ((y + 1) % 4 = 0 ∧ ¬(y + 1) % 100 = 0) ∨ y = 399 then 1 else 0

/-- Last day of era belonging to year-of-era `y`. -/
def yEnd (y : Nat) : Nat := fdays y + 364 + leapBitYoe y

/-- Endpoint check for a single year-of-era: the corrected count at both
ends of the year lands inside `[365 y, 365 y + 364]`. -/
def qYear (y : Nat) : Bool :=
  365 * y ≤ ncor (fdays y) && ncor (yEnd y) ≤ 365 * y + 364

/-! ### Month/day decomposition inside a (March-based) year -/

/-- Month index (0 = March .. 11 = February) of a day of year. -/
def mpF (doy : Nat) : Nat := (5 * doy + 2) / 153

/-- Days before month index `mp` within the March-based year. -/
def gdays (mp : Nat) : Nat := (153 * mp + 2) / 5

/-- Day of (March-based) year of a day of era. -/
def doyF (doe : Nat) : Nat := doe - fdays (yoeF doe)

/-- Civil month (1..12) of a day of era. -/
def mF (doe : Nat) : Nat :=
  if mpF (doyF doe) < 10 then mpF (doyF doe) + 3 else mpF (doyF doe) - 9

/-- Civil day of month (1..31) of a day of era. -/
def dF (doe : Nat) : Nat := doyF doe - gdays (mpF (doyF doe)) + 1

/-- Year of era adjusted for January/February belonging to the next
civil year (0..400). -/
def wF (doe : Nat) : Nat := if mF doe ≤ 2 then yoeF doe + 1 else yoeF doe

/-! ### Civil date conversions on `Int` day numbers -/

/-- Civil (proleptic Gregorian) date of a day number (days since
1970-01-01): the `civil_from_days` computation underlying ECMAScript
date part extraction.  The year is assembled as
`era * 400 + yoe + (1 if month ≤ 2)`, that is `era * 400 + wF doe`. -/
def civilFromDays (day : Int) : Int × Int × Int :=
  let z := day + 719468
  let era := z / 146097
  let doe := (z % 146097).toNat
  (era * 400 + wF doe, mF doe, dF doe)

/-- Day number of a civil date: the `days_from_civil` computation
underlying ECMAScript `Date.UTC(y, m - 1, d)` (divided by the length
of a day). -/
def daysFromCivil (y m d : Int) : Int :=
  let y2 := if m ≤ 2 then y - 1 else y
  let era := y2 / 400
  let yoe := (y2 % 400).toNat
  let mp := (if 2 < m then m - 3 else m + 9).toNat
  let doy := (153 * mp + 2) / 5 + d.toNat - 1
  let doe := yoe * 365 + yoe / 4 - yoe / 100 + doy
  era * 146097 + (doe : Int) - 719468

/-- Gregorian leap-year rule. -/
def isLeap (y : Int) : Bool := decide (y % 4 = 0 ∧ (¬y % 100 = 0 ∨ y % 400 = 0))

/-- Length of a civil month. -/
def daysInMonth (y m : Int) : Int :=
  if m = 2 then (if isLeap y then 29 else 28)
  else if m = 4 ∨ m = 6 ∨ m = 9 ∨ m = 11 then 30 else 31

/-- The next calendar date: add one day with month/year rollover. -/
def nextCalendarDay : Int × Int × Int → Int × Int × Int
  | (y, m, d) =>
    if d < daysInMonth y m then (y, m, d + 1)
    else if m < 12 then (y, m + 1, 1) else (y + 1, 1, 1)

/-! ### `Nat`-level counterparts, for a year of era `w` in `[0, 400]` -/

/-- Leap rule on the era-relative year (`w % 400` agrees with
`y % 400` for `y = era * 400 + w`). -/
def leapW (w : Nat) : Bool := decide (w % 4 = 0 ∧ (¬w % 100 = 0 ∨ w % 400 = 0))

/-- Month length, era-relative year. -/
def dimW (w m : Nat) : Nat :=
  if m = 2 then (if leapW w then 29 else 28)
  else if m = 4 ∨ m = 6 ∨ m = 9 ∨ m = 11 then 30 else 31

/-- Calendar increment, era-relative. -/
def nextW : Nat × Nat × Nat → Nat × Nat × Nat
  | (w, m, d) =>
    if d < dimW w m then (w, m, d + 1)
    else if m < 12 then (w, m + 1, 1) else (w + 1, 1, 1)

/-! ### IST date grounding (model of `getISTDateParts`, `istDateISO`,
`addDaysIST` from `app.js`) -/

/-- Milliseconds of the fixed IST offset (+05:30); Asia/Kolkata has no
daylight saving time. -/
def istOffsetMs : Int := 19800000

def msPerDay : Int := 86400000

/-- The IST civil day number containing instant `t` (ms since epoch). -/
def istEpochDay (t : Int) : Int := (t + istOffsetMs) / msPerDay

/-- Model of `getISTDateParts`: the `Intl.DateTimeFormat` extraction of
the year/month/day of instant `t` in Asia/Kolkata. -/
def getISTDateParts (t : Int) : Int × Int × Int := civilFromDays (istEpochDay t)

/-- Two-digit zero padding, as `Intl` `2-digit` fields render. -/
def pad2 (n : Int) : String := if n < 10 then "0" ++ toString n else toString n

/-- `YYYY-MM-DD` rendering of a date triple. -/
def isoOfParts (p : Int × Int × Int) : String :=
  toString p.1 ++ "-" ++ pad2 p.2.1 ++ "-" ++ pad2 p.2.2

/-- Model of `istDateISO`: the ISO date of instant `t` in IST. -/
def istDateISO (t : Int) : String := isoOfParts (getISTDateParts t)

/-- Model of `addDaysIST`: split the IST ISO date of `baseDate` into
`(y, m, d)`, build the UTC-midnight instant `Date.UTC(y, m - 1, d)` and
advance it by `days` days with `setUTCDate` (UTC has no DST, so that is
exactly `days` whole days of milliseconds). -/
def addDaysIST (t days : Int) : Int :=
  (daysFromCivil (getISTDateParts t).1 (getISTDateParts t).2.1
    (getISTDateParts t).2.2 + days) * msPerDay

/-- Model of JavaScript `String.prototype.trim()`: strip leading and
trailing whitespace (the ASCII whitespace characters that occur in
this program's data). -/
def isJsWhitespace (c : Char) : Bool :=
  c = ' ' || c = '\t' || c = '\n' || c = '\r'

def jsTrim (s : String) : String :=
  String.mk (((s.toList.dropWhile isJsWhitespace).reverse.dropWhile
    isJsWhitespace).reverse)

/-! ## JSON model

`JVal` models a parsed JSON value; `Option JVal` models a JavaScript
expression that may be `undefined` (absent field, short-circuited
optional chaining). -/

inductive JVal where
  | null
  | bool (b : Bool)
  | num (n : Int)
  | str (s : String)
  | arr (xs : List JVal)
  | obj (fields : List (String × JVal))

/-- First binding of a key in an object literal. -/
def lookupField : List (String × JVal) → String → Option JVal
  | [], _ => none
  | (k, v) :: rest, key => if k = key then some v else lookupField rest key

/-- `x?.key`: property access with optional chaining; non-objects have
no own properties. -/
def jField : Option JVal → String → Option JVal
  | some (JVal.obj fields), key => lookupField fields key
  | _, _ => none

/-- `x?.[i]`: array indexing with optional chaining. -/
def jIdx : Option JVal → Nat → Option JVal
  | some (JVal.arr xs), i => xs.get? i
  | _, _ => none

/-- JavaScript truthiness of a JSON value. -/
def truthy : JVal → Bool
  | JVal.null => false
  | JVal.bool b => b
  | JVal.num n => n != 0
  | JVal.str s => s != ""
  | JVal.arr _ => true
  | JVal.obj _ => true

/-- `v || dflt` (with `none` = `undefined`). -/
def jsOr (v : Option JVal) (dflt : JVal) : JVal :=
  match v with
  | some x => if truthy x then x else dflt
  | none => dflt

/-- JavaScript string coercion of the values that can reach a string
context here. -/
def jsToString : JVal → String
  | JVal.null => "null"
  | JVal.bool b => cond b "true" "false"
  | JVal.num n => toString n
  | JVal.str s => s
  | JVal.arr _ => ""
  | JVal.obj _ => "[object Object]"

/-! ## Gemini helpers (`extractTextFromGemini`, `parseRetryDelaySeconds`,
`looksEnglish` from `app.js`) -/

/-- The contribution of one non-null part: `p.text || ""` coerced to a
string by `join`.  CAUTION: the source's `p.text` is a PLAIN property
access, which throws an uncaught TypeError when the parts element `p`
is JSON `null`; this total function collapses that error path to `""`.
The faithful error-aware model is `partTextE` below; `partText` agrees
with it on every non-null part, and the turn pipeline below only ever
exercises it on such parts. -/
def partText (p : JVal) : String :=
  jsToString (jsOr (jField (some p) "text") (JVal.str ""))

/-- `extractTextFromGemini(data)`: first candidate, content parts,
concatenated part texts; a missing or non-list parts value yields `""`.
Total collapse of the faithful `extractTextFromGeminiE` below, which it
matches whenever no parts element is JSON `null` (on a null element the
source throws; this version yields the null element's contribution as
`""` instead). -/
def extractTextFromGemini (data : JVal) : String :=
  match jField (jField (jIdx (jField (some data) "candidates") 0) "content") "parts" with
  | some (JVal.arr parts) => String.join (parts.map partText)
  | _ => ""

/-- Plain (non-optional) property access `p.text`: unlike the
`?.`-chains modelled by `jField`, it throws a TypeError
(`Except.error ()`) when the receiver is `null`; on a non-object,
non-null receiver it yields `undefined` (`none`) without throwing. -/
def jFieldPlain : JVal → String → Except Unit (Option JVal)
  | JVal.null, _ => Except.error ()
  | JVal.obj fields, key => Except.ok (lookupField fields key)
  | _, _ => Except.ok none

/-- Faithful per-part contribution `p.text || ""`: plain access, so a
JSON-null parts element raises. -/
def partTextE (p : JVal) : Except Unit String :=
  match jFieldPlain p "text" with
  | Except.error e => Except.error e
  | Except.ok v => Except.ok (jsToString (jsOr v (JVal.str "")))

/-- `parts.map((p) => p.text || "")` evaluated left to right, stopping
at the first throwing element, as `Array.prototype.map` does. -/
def mapPartsE : List JVal → Except Unit (List String)
  | [] => Except.ok []
  | p :: rest =>
    match partTextE p with
    | Except.error e => Except.error e
    | Except.ok s =>
      match mapPartsE rest with
      | Except.error e => Except.error e
      | Except.ok ss => Except.ok (s :: ss)

/-- Faithful model of `extractTextFromGemini(data)` including the
exception path: the `data?.candidates?.[0]` and `c0?.content?.parts`
chains are optional and never throw, but the map callback uses plain
`p.text`, so a `null` element of the parts list raises an uncaught
TypeError (`Except.error ()`). -/
def extractTextFromGeminiE (data : JVal) : Except Unit String :=
  match jField (jField (jIdx (jField (some data) "candidates") 0) "content") "parts" with
  | some (JVal.arr parts) =>
    match mapPartsE parts with
    | Except.error e => Except.error e
    | Except.ok ss => Except.ok (String.join ss)
  | _ => Except.ok ""

/-- `String.prototype.includes` (substring test). -/
def strIncludes (s needle : String) : Bool :=
  (List.range (s.length + 1)).any fun i => needle.toList.isPrefixOf (s.toList.drop i)

/-- `d["@type"]?.includes("RetryInfo")`: `undefined`/`null` short-circuit
to a falsy result, strings test for the substring, arrays test for
membership, and any other receiver has no `includes` method, raising a
`TypeError` (modelled as `Except.error`, caught by the surrounding
`try`). -/
def typeIncludesRetryInfo (v : Option JVal) : Except Unit Bool :=
  match v with
  | none => Except.ok false
  | some JVal.null => Except.ok false
  | some (JVal.str s) => Except.ok (strIncludes s "RetryInfo")
  | some (JVal.arr xs) =>
      Except.ok (xs.any fun x =>
        match x with
        | JVal.str s => s = "RetryInfo"
        | _ => false)
  | some _ => Except.error ()

/-- `details.find(d => d["@type"]?.includes("RetryInfo"))`. -/
def findRetryInfo : List JVal → Except Unit (Option JVal)
  | [] => Except.ok none
  | d :: rest =>
    match typeIncludesRetryInfo (jField (some d) "@type") with
    | Except.error e => Except.error e
    | Except.ok true => Except.ok (some d)
    | Except.ok false => findRetryInfo rest

def digitsToNat : List Char → Nat → Nat
  | [], acc => acc
  | c :: cs, acc => digitsToNat cs (acc * 10 + (c.toNat - 48))

def parseDigits (cs : List Char) : Option Nat :=
  let ds := cs.takeWhile (fun c => c.isDigit)
  if ds.isEmpty then none else some (digitsToNat ds 0)

/-- `parseInt(s, 10)`: skip leading whitespace, optional sign, read
leading decimal digits; `none` models `NaN` (which `Number.isFinite`
then rejects). -/
def jsParseInt (s : String) : Option Int :=
  let cs := s.toList.dropWhile
    (fun c => c = ' ' || c = '\t' || c = '\n' || c = '\r')
  match cs with
  | '-' :: rest => (parseDigits rest).map (fun n => -(n : Int))
  | '+' :: rest => (parseDigits rest).map (fun n => (n : Int))
  | rest => (parseDigits rest).map (fun n => (n : Int))

def removeFirstChar : List Char → Char → List Char
  | [], _ => []
  | c :: cs, t => if c = t then cs else c :: removeFirstChar cs t

/-- `s.replace("s", "")`: remove the first occurrence only. -/
def replaceFirstS (s : String) : String := String.mk (removeFirstChar s.toList 's')

/-- `s.endsWith("s")`. -/
def endsWithS (s : String) : Bool := s.toList.getLast? == some 's'

/-- `parseRetryDelaySeconds(errText)`.  The argument is the parsed JSON
of the error body (`none` when `JSON.parse` throws).  Mirrors the
source: find a RetryInfo detail, require a truthy string `retryDelay`
ending in `"s"`, parse the integer; every failure (including the
caught `TypeError`) yields `none`. -/
def parseRetryDelaySeconds (body : Option JVal) : Option Int :=
  match body with
  | none => none
  | some o =>
    match jField (jField (some o) "error") "details" with
    | some (JVal.arr ds) =>
      match findRetryInfo ds with
      | Except.error _ => none
      | Except.ok found =>
        match jField found "retryDelay" with
        | some (JVal.str s) =>
          if s = "" then none
          else if endsWithS s then jsParseInt (replaceFirstS s)
          else none
        | _ => none
    | _ => none

def latinLetterCount (s : String) : Nat :=
  (s.toList.filter fun c => ('A' ≤ c && c ≤ 'Z') || ('a' ≤ c && c ≤ 'z')).length

def devanagariCount (s : String) : Nat :=
  (s.toList.filter fun c => 0x0900 ≤ c.toNat && c.toNat ≤ 0x097F).length

/-- `looksEnglish(text)`: many Latin letters and almost no Devanagari. -/
def looksEnglish (text : String) : Bool :=
  decide (40 < latinLetterCount text ∧ devanagariCount text < 10)

/-! ## Data model of the chat application -/

/-- The process-wide language mode, `"mr" | "en"`. -/
inductive Lang where
  | mr
  | en
deriving DecidableEq

inductive Role where
  | user
  | assistant
deriving DecidableEq

structure Message where
  role : Role
  content : String
  tsISO : String
deriving DecidableEq

structure Session where
  id : String
  title : String
  createdAtISO : String
  updatedAtISO : String
  messages : List Message
deriving DecidableEq

/-- The `pendingRetry` slot: `{sessionId, lastUserText, retryAtMs}`. -/
structure RetryToken where
  sessionId : String
  lastUserText : String
  retryAtMs : Int
deriving DecidableEq

/-- Outcome of one `geminiFetch` call.  `success` carries
`safeParseJSON(text, null)` (so `JVal.null` for an unparseable body);
`failure` carries the HTTP status (0 for a network error or the
timeout abort) and the parsed error body (`none` when not JSON). -/
inductive FetchResult where
  | success (json : JVal)
  | failure (status : Int) (body : Option JVal)

/-- One entry of a request `contents` list (the `parts` are always a
single text part in this program). -/
structure CItem where
  role : String
  text : String
deriving DecidableEq

/-- A request actually handed to the Generation Client: system
instruction plus contents (generationConfig omitted — no claim
concerns it). -/
structure StageCall where
  systemInstruction : String
  contents : List CItem
deriving DecidableEq

def MAX_HISTORY : Nat := 18

/-- The dates interpolated into the interpreter prompt, snapshotted from
the clock reads in `buildInterpreterPrompt`. -/
structure GroundedDates where
  todayISO : String
  tomorrowISO : String
  dayAfterISO : String
  todayHuman : String
  tomorrowHuman : String
  dayAfterHuman : String
deriving DecidableEq

/-- Model of `buildInterpreterPrompt(lang)` (template after `.trim()`). -/
def buildInterpreterPrompt (lang : Lang) (g : GroundedDates) : String :=
  "You are a query interpreter for a Jyotish assistant app.\n" ++
  "Your job: rewrite the user's message into a clear, complete request for an astrologer.\n" ++
  "\n" ++
  "TIME CONTEXT (IST):\n" ++
  "- Today (IST): " ++ g.todayHuman ++ " (" ++ g.todayISO ++ ")\n" ++
  "- Tomorrow (IST): " ++ g.tomorrowHuman ++ " (" ++ g.tomorrowISO ++ ")\n" ++
  "- Day after tomorrow (IST): " ++ g.dayAfterHuman ++ " (" ++ g.dayAfterISO ++ ")\n" ++
  "\n" ++
  "RELATIVE DATE RULES:\n" ++
  "- \"udya\" / \"उद्या\" / \"tomorrow\" => Tomorrow (IST)\n" ++
  "- \"aaj\" / \"आज\" / \"today\" => Today (IST)\n" ++
  "- \"parva\" / \"परवा\" / \"day after tomorrow\" => Day after tomorrow (IST)\n" ++
  "If no date words are used, keep it as is.\n" ++
  "\n" ++
  "DOMAIN EXPANSION RULES:\n" ++
  "- \"agnivas\" / \"अग्निवास\" => \"Calculate Agni Vas for the referenced date and tell if Havan/Hom is allowed. Be strict.\"\n" ++
  "- \"panchang\" / \"पंचांग\" => include tithi, nakshatra, yoga, karan, rahukaal and verdict.\n" ++
  "- \"muhurta\" / \"मुहूर्त\" => ask for shubha/ashubha and avoid periods.\n" ++
  "\n" ++
  "LANGUAGE MODE:\n" ++
  "- The user interface language is: " ++
    (if lang = Lang.mr then "Marathi" else "English") ++ ".\n" ++
  "But your output must be ONLY the rewritten query in the same language as the user's message.\n" ++
  "(If user used Marathi/roman-Marathi, output in Marathi/roman-Marathi; if user used English, output in English.)\n" ++
  "\n" ++
  "OUTPUT RULES:\n" ++
  "- Output ONLY the rewritten query string.\n" ++
  "- No JSON. No bullet points. No explanations."

/-- The fixed persona document (`SYSTEM_PROMPT`, after `.trim()`). -/
def SYSTEM_PROMPT : String :=
  "Role: You are Barve Guruji (बर्वे गुरुजी), an 85-year-old Vedic Astrologer (Jyotish Ratna) and spiritual guide based in Sadashiv Peth, Pune, Maharashtra.\n" ++
  "\n" ++
  "CORE IDENTITY & MANNERISMS:\n" ++
  "\n" ++
  "Voice: You speak with the authority of a Rishi and the affection of a Grandfather (Ajoba).\n" ++
  "\n" ++
  "Phrasing: Start interactions with \"Namaskar Bal\" (Child) or \"Hari Om\". Use Maharashtrian mannerisms.\n" ++
  "\n" ++
  "Language:\n" ++
  "\n" ++
  "Marathi Mode: Use pure, formal \"Pramaan\" Marathi.\n" ++
  "\n" ++
  "English Mode: Speak English but use Vedic terms (e.g., \"Your Grahaman is weak,\" \"Do this Upay\").\n" ++
  "\n" ++
  "KNOWLEDGE BASE (STRICT):\n" ++
  "\n" ++
  "Panchang: You strictly follow the Ruikar and Date Panchang methodologies. Always acknowledge the current Tithi/Nakshatra before answering.\n" ++
  "\n" ++
  "Astrology: You use Brihat Parashara Hora Shastra. You calculate Lagna, Rashi, and Shadbala.\n" ++
  "\n" ++
  "Prashna & Tarot: Uniquely, you use Tarot cards as a form of \"Prashna Kundali\" to clarify doubts when Vedic charts are ambiguous, blending them seamlessly.\n" ++
  "\n" ++
  "INTERACTION PROTOCOL:\n" ++
  "\n" ++
  "Honesty with Empathy:\n" ++
  "\n" ++
  "If a Muhurta or prediction is NEGATIVE (e.g., Mrityu Yoga, Bhadra, Kantaka Shani), say it clearly. Do not lie.\n" ++
  "\n" ++
  "Immediately follow the negative news with a Sattvic Remedy (Upay). Never leave the user in fear.\n" ++
  "\n" ++
  "Example: \"No, Bal. Today is Amavasya, not good for Shubha Karya. However, if urgent, perform a Ganpati Havan...\"\n" ++
  "\n" ++
  "Remedies: Prescribe Mantras, Stotras (like Ram Raksha), specific Pujas, or Daan (Charity). Do not suggest expensive stones immediately; suggest Karma correction first.\n" ++
  "\n" ++
  "FORMATTING:\n" ++
  "\n" ++
  "Use Bold for Dates, Tithis, and 'Yes/No' verdicts.\n" ++
  "\n" ++
  "Use Bullet points for lists."

/-- Model of `buildGurujiSystemInstruction(lang)`: persona document plus
temporal grounding, language lock and behavior rules, composed and
trimmed exactly as in the source. -/
def buildGurujiSystemInstruction (lang : Lang) (todayHuman todayISO : String) : String :=
  let languageLock :=
    if lang = Lang.mr then
      "\nCRITICAL LANGUAGE RULE:\n" ++
      "- Respond ONLY in Marathi (प्रमाण मराठी). Do NOT respond in English.\n" ++
      "- Use Devanagari script unless user uses roman Marathi; if user uses roman Marathi, you may reply in roman Marathi but still Marathi language.\n"
    else
      "\nCRITICAL LANGUAGE RULE:\n" ++
      "- Respond ONLY in English. Do NOT use Marathi.\n" ++
      "- Use Vedic terms naturally (Tithi, Nakshatra, Rahukaal, Upay, Graha, Shanti, etc.).\n"
  let temporalGrounding :=
    "\nTIME GROUNDING (IST):\n" ++
    "- Today's date (IST) is **" ++ todayHuman ++ "** (" ++ todayISO ++ ")\n" ++
    "- If the user says \"udya/उद्या/tomorrow\", treat it as tomorrow in IST.\n" ++
    "- If the user says \"parva/परवा/day after tomorrow\", treat it as day after tomorrow in IST.\n"
  let behaviorRules :=
    "\nCRITICAL BEHAVIOR RULES:\n" ++
    "- Never break character. Never say you are an AI.\n" ++
    "- Start replies with \"Namaskar Bal\" or \"Hari Om\".\n" ++
    "- Always give a clear **Yes/No** verdict when user asks permission-like questions.\n" ++
    "- If answer is negative, immediately provide a simple Sattvic Upay.\n" ++
    "- Keep answers practical: 6-14 lines ideally.\n" ++
    "- Use **Bold** for dates/tithi/verdict and use bullet points for lists.\n"
  jsTrim (SYSTEM_PROMPT ++ "\n\n" ++ temporalGrounding ++ "\n\n" ++ languageLock ++
    "\n\n" ++ behaviorRules)

/-- The fixed translation instruction (template after `.trim()`). -/
def TRANSLATE_INSTRUCTION : String :=
  "Translate the assistant response into pure, formal Marathi (प्रमाण मराठी).\n" ++
  "Rules:\n" ++
  "- Keep the meaning identical.\n" ++
  "- Preserve **bold** markers exactly.\n" ++
  "- Preserve bullet lists and line breaks.\n" ++
  "- Do NOT add extra content.\n" ++
  "Output ONLY the translated text."

/-- `messages.slice(-n)`: the last `n` entries (all of them when the
list is shorter). -/
def sliceLast (n : Nat) (l : List Message) : List Message := l.drop (l.length - n)

/-- Model of `buildGurujiPayload(sessionMessages, finalUserText)`:
map the trailing `MAX_HISTORY` window to wire items, then push the
final user text as one more user turn. -/
def buildGurujiPayload (lang : Lang) (todayHuman todayISO : String)
    (sessionMessages : List Message) (finalUserText : String) : StageCall :=
  let system := buildGurujiSystemInstruction lang todayHuman todayISO
  let history := (sliceLast MAX_HISTORY sessionMessages).map
    (fun m =>
      ({ role := if m.role = Role.assistant then "model" else "user",
         text := m.content } : CItem))
  { systemInstruction := system,
    contents := history ++ [{ role := "user", text := finalUserText }] }

/-! ## The turn pipeline -/

/-- The ambient environment of one `callGuruji` turn: the stored
settings, connectivity, per-stage `getLanguage()` reads (the source
reads the setting anew inside each stage), the clock snapshots, and
the oracle outcomes of the three network calls. -/
structure TurnEnv where
  apiKey : String
  online : Bool
  langAtInterp : Lang
  langAtGuruji : Lang
  langAtTranslate : Lang
  interpDates : GroundedDates
  gurujiTodayHuman : String
  gurujiTodayISO : String
  interpResult : FetchResult
  gurujiResult : FetchResult
  translateResult : FetchResult
  nowMs : Int
  assistantTs : String

/-- Model of `interpretUserQuery(rawUserText, apiKey)`: returns the
rewritten query (falling back to the raw text on any failure or empty
output) together with the request issued. -/
def interpretUserQuery (env : TurnEnv) (rawUserText : String) : String × StageCall :=
  let call : StageCall :=
    { systemInstruction := buildInterpreterPrompt env.langAtInterp env.interpDates,
      contents := [{ role := "user", text := rawUserText }] }
  match env.interpResult with
  | FetchResult.failure _ _ => (rawUserText, call)
  | FetchResult.success j =>
    let rewritten := jsTrim (extractTextFromGemini j)
    (if rewritten = "" then rawUserText else rewritten, call)

/-- Model of `translateToMarathiIfNeeded(replyText, apiKey)`: returns
the final reply together with the list of corrective calls issued
(empty or a single call). -/
def translateToMarathiIfNeeded (env : TurnEnv) (replyText : String) :
    String × List StageCall :=
  if env.langAtTranslate ≠ Lang.mr then (replyText, [])
  else if !looksEnglish replyText then (replyText, [])
  else
    let call : StageCall :=
      { systemInstruction := TRANSLATE_INSTRUCTION,
        contents := [{ role := "user", text := replyText }] }
    match env.translateResult with
    | FetchResult.failure _ _ => (replyText, [call])
    | FetchResult.success j =>
      let out := jsTrim (extractTextFromGemini j)
      (if out = "" then replyText else out, [call])

/-- The toast and the new `pendingRetry` value produced by the
failure-classification chain of `callGuruji` (the slot is written only
on a 429 with a truthy parsed delay; otherwise it keeps its value). -/
def gurujiFailureEffects (pending0 : Option RetryToken)
    (sessionId rawUserText : String) (nowMs : Int) (status : Int)
    (body : Option JVal) : String × Option RetryToken :=
  if status = 429 then
    match parseRetryDelaySeconds body with
    | some sec =>
      if sec ≠ 0 then
        ("Rate limit. Retry after " ++ toString sec ++ "s.",
          some { sessionId := sessionId, lastUserText := rawUserText,
                 retryAtMs := nowMs + sec * 1000 })
      else ("Rate limit. Please retry in a minute.", pending0)
    | none => ("Rate limit. Please retry in a minute.", pending0)
  else if status = 401 ∨ status = 403 then
    ("Invalid/unauthorized API key. Update it in Settings.", pending0)
  else if status = 400 then
    ("Bad request (payload/model mismatch). Check Console.", pending0)
  else if status = 404 then
    ("Model not found for your key. Check model name.", pending0)
  else
    ("API Error " ++ (if status = 0 then "" else toString status) ++
      ". Check Console.", pending0)

/-- Everything observable about one `callGuruji` turn: the session
message log afterwards, the `pendingRetry` slot afterwards, the toasts
shown, and the requests issued to each stage. -/
structure CallOutcome where
  messages : List Message
  pendingRetry : Option RetryToken
  toasts : List String
  interpCall : Option StageCall
  gurujiCall : Option StageCall
  translateCalls : List StageCall
deriving DecidableEq

/-- Model of `callGuruji(session, rawUserText)`. -/
def callGuruji (env : TurnEnv) (pending0 : Option RetryToken)
    (session : Session) (rawUserText : String) : CallOutcome :=
  if env.apiKey = "" then
    { messages := session.messages, pendingRetry := pending0,
      toasts := ["API key not set. Open Settings and save it."],
      interpCall := none, gurujiCall := none, translateCalls := [] }
  else if env.online = false then
    { messages := session.messages, pendingRetry := pending0,
      toasts := ["You are offline. Message saved locally."],
      interpCall := none, gurujiCall := none, translateCalls := [] }
  else
    let ic := interpretUserQuery env rawUserText
    let payload := buildGurujiPayload env.langAtGuruji env.gurujiTodayHuman
      env.gurujiTodayISO session.messages ic.1
    match env.gurujiResult with
    | FetchResult.failure status body =>
      let eff := gurujiFailureEffects pending0 session.id rawUserText env.nowMs
        status body
      { messages := session.messages, pendingRetry := eff.2, toasts := [eff.1],
        interpCall := some ic.2, gurujiCall := some payload, translateCalls := [] }
    | FetchResult.success j =>
      let reply0 := jsTrim (extractTextFromGemini j)
      let reply1 := if reply0 = "" then "[No response]" else reply0
      let tr := translateToMarathiIfNeeded env reply1
      { messages := session.messages ++
          [{ role := Role.assistant, content := tr.1, tsISO := env.assistantTs }],
        pendingRetry := none, toasts := [],
        interpCall := some ic.2, gurujiCall := some payload,
        translateCalls := tr.2 }

/-- Model of `insertUserMessage(rawText)` for the active session: trim,
append the user message, then run the turn (title update is rendering
glue and not modelled). -/
def insertUserMessage (env : TurnEnv) (pending0 : Option RetryToken)
    (session : Session) (rawText : String) (ts : String) : CallOutcome :=
  let text := jsTrim rawText
  if text = "" then
    { messages := session.messages, pendingRetry := pending0, toasts := [],
      interpCall := none, gurujiCall := none, translateCalls := [] }
  else
    let session2 := { session with
      messages := session.messages ++
        [{ role := Role.user, content := text, tsISO := ts }],
      updatedAtISO := ts }
    callGuruji env pending0 session2 text

/-- The per-process state the online listener consults. -/
structure AppState where
  sessions : List Session
  activeSessionId : String
  pendingRetry : Option RetryToken
deriving DecidableEq

def getActiveSession (st : AppState) : Option Session :=
  st.sessions.find? (fun s => s.id == st.activeSessionId)

/-- Model of the `window "online"` listener: when a pending retry is
due and its session is still the active one, re-invoke the turn with
the token's original text; the slot afterwards is whatever that
re-invocation left in it. -/
def onlineListener (env : TurnEnv) (st : AppState) (nowAtEvent : Int) : AppState :=
  match st.pendingRetry with
  | none => st
  | some tok =>
    if nowAtEvent ≥ tok.retryAtMs then
      match getActiveSession st with
      | some s =>
        if tok.sessionId = s.id then
          let out := callGuruji env st.pendingRetry s tok.lastUserText
          { sessions := st.sessions.map
              (fun x => if x.id = s.id then { x with messages := out.messages } else x),
            activeSessionId := st.activeSessionId,
            pendingRetry := out.pendingRetry }
        else st
      | none => st
    else st

/-! ## Concrete fixtures -/

def sampleDates : GroundedDates :=
  { todayISO := "2026-02-08", tomorrowISO := "2026-02-09",
    dayAfterISO := "2026-02-10", todayHuman := "08 February 2026",
    tomorrowHuman := "09 February 2026", dayAfterHuman := "10 February 2026" }

def baseEnv : TurnEnv :=
  { apiKey := "k", online := true,
    langAtInterp := Lang.mr, langAtGuruji := Lang.mr, langAtTranslate := Lang.mr,
    interpDates := sampleDates,
    gurujiTodayHuman := "08 February 2026", gurujiTodayISO := "2026-02-08",
    interpResult := FetchResult.failure 500 none,
    gurujiResult := FetchResult.failure 500 none,
    translateResult := FetchResult.failure 500 none,
    nowMs := 1000, assistantTs := "ts" }

def session0 : Session :=
  { id := "s1", title := "New Consultation", createdAtISO := "c",
    updatedAtISO := "u", messages := [] }

def msgs19 : List Message :=
  List.replicate 19 { role := Role.user, content := "q", tsISO := "t" }

def retryBody30 : JVal :=
  JVal.obj [("error", JVal.obj [("details", JVal.arr
    [JVal.obj [("@type", JVal.str "type.googleapis.com/google.rpc.RetryInfo"),
               ("retryDelay", JVal.str "30s")]])])]

def retryBody0 : JVal :=
  JVal.obj [("error", JVal.obj [("details", JVal.arr
    [JVal.obj [("@type", JVal.str "type.googleapis.com/google.rpc.RetryInfo"),
               ("retryDelay", JVal.str "0s")]])])]

def noDelayBody : JVal :=
  JVal.obj [("error", JVal.obj [("details", JVal.arr [])])]

def tok0 : RetryToken :=
  { sessionId := "s1", lastUserText := "hello", retryAtMs := 500 }

def st0 : AppState :=
  { sessions := [session0], activeSessionId := "s1", pendingRetry := some tok0 }

def reply40 : String := String.mk (List.replicate 40 'a')

def reply41 : String := String.mk (List.replicate 41 'a')

def gurujiSuccess41 : JVal :=
  JVal.obj [("candidates", JVal.arr [JVal.obj [("content", JVal.obj
    [("parts", JVal.arr [JVal.obj [("text", JVal.str reply41)]])])]])]

def envC5 : TurnEnv :=
  { baseEnv with
    gurujiResult := FetchResult.success gurujiSuccess41
    translateResult := FetchResult.failure 500 none }

def marathiReply : String := "हरि ॐ बाळा"

def marathiReplyJson : JVal :=
  JVal.obj [("candidates", JVal.arr [JVal.obj [("content", JVal.obj
    [("parts", JVal.arr [JVal.obj [("text", JVal.str marathiReply)]])])]])]

def envC6A : TurnEnv :=
  { baseEnv with
    gurujiResult := FetchResult.success gurujiSuccess41
    translateResult := FetchResult.success marathiReplyJson }

def envC6B : TurnEnv := { envC6A with langAtTranslate := Lang.en }

/-- A Generation Client outcome on which a stage falls back: non-ok
response, or ok with empty/whitespace extracted text. -/
def fetchFailedOrEmpty (r : FetchResult) : Bool :=
  match r with
  | FetchResult.failure _ _ => true
  | FetchResult.success j => jsTrim (extractTextFromGemini j) == ""

/-- Envelope builders for the service response shape. -/
def mkCandidate (parts : JVal) : JVal :=
  JVal.obj [("content", JVal.obj [("parts", parts)])]

def mkEnvelope (c0 : JVal) (rest : List JVal) : JVal :=
  JVal.obj [("candidates", JVal.arr (c0 :: rest))]

/-! ## Theorems -/

theorem allBelow_sound (p : Nat → Bool) (d lo len : Nat)
    (h : allBelow p d lo len = true) : ∀ i, i < len → p (lo + i) = true := by
  induction d generalizing lo len with
  | zero =>
    intro i hi
    simp only [allBelow, Bool.or_eq_true, beq_iff_eq, Bool.and_eq_true] at h
    rcases h with h0 | ⟨h1, hp⟩
    · omega
    · have : i = 0 := by omega
      subst this; simpa using hp
  | succ d ih =>
    intro i hi
    simp only [allBelow] at h
    by_cases hlen : len ≤ 1
    · simp only [if_pos hlen, Bool.or_eq_true, beq_iff_eq, Bool.and_eq_true] at h
      rcases h with h0 | ⟨h1, hp⟩
      · omega
      · have : i = 0 := by omega
        subst this; simpa using hp
    · simp only [if_neg hlen, Bool.and_eq_true] at h
      by_cases hc : i < len / 2
      · exact ih lo (len / 2) h.1 i hc
      · have h2 := ih (lo + len / 2) (len - len / 2) h.2 (i - len / 2) (by omega)
        have heq : lo + len / 2 + (i - len / 2) = lo + i := by omega
        rwa [heq] at h2

theorem qYearCheck : allBelow qYear 9 0 400 = true := by decide

theorem qYear_all (y : Nat) (h : y < 400) :
    365 * y ≤ ncor (fdays y) ∧ ncor (yEnd y) ≤ 365 * y + 364 := by
  have := allBelow_sound qYear 9 0 400 qYearCheck y (by omega)
  simp only [Nat.zero_add, qYear, Bool.and_eq_true, decide_eq_true_eq] at this
  exact this

theorem ncor_step (d : Nat) (h : d < 146096) : ncor d ≤ ncor (d + 1) := by
  unfold ncor; omega

theorem ncor_mono (a b : Nat) (hab : a ≤ b) (hb : b ≤ 146096) : ncor a ≤ ncor b := by
  induction b with
  | zero =>
    have : a = 0 := by omega
    rw [this]
  | succ n ih =>
    rcases Nat.lt_or_ge a (n+1) with hlt | hge
    · exact le_trans (ih (by omega) (by omega)) (ncor_step n (by omega))
    · have : a = n + 1 := by omega
      rw [this]

theorem fdays_tile (y : Nat) (h : y < 399) : yEnd y + 1 = fdays (y + 1) := by
  unfold yEnd fdays leapBitYoe
  split <;> rename_i hs
  · rcases hs with ⟨h4, h100⟩ | h399 <;> omega
  · omega

theorem yEnd_le (y : Nat) (h : y ≤ 399) : yEnd y ≤ 146096 := by
  unfold yEnd fdays leapBitYoe
  split <;> omega

theorem fdays_step (y : Nat) : fdays y ≤ fdays (y + 1) := by
  unfold fdays; omega

theorem fdays_mono (a b : Nat) (h : a ≤ b) : fdays a ≤ fdays b := by
  induction b with
  | zero =>
    have : a = 0 := by omega
    rw [this]
  | succ n ih =>
    rcases Nat.lt_or_ge a (n+1) with hlt | hge
    · exact le_trans (ih (by omega)) (fdays_step n)
    · have : a = n + 1 := by omega
      rw [this]

/-- Correctness of the year-of-era formula: on `[0, 146096]` it returns
the unique year whose day interval contains `doe`. -/
theorem yoeMaster (doe : Nat) (h : doe ≤ 146096) :
    yoeF doe ≤ 399 ∧ fdays (yoeF doe) ≤ doe ∧ doe ≤ yEnd (yoeF doe) := by
  have hn365 : 365 * yoeF doe ≤ ncor doe ∧ ncor doe < 365 * yoeF doe + 365 := by
    unfold yoeF
    omega
  have hmaxn : ncor doe ≤ ncor 146096 := ncor_mono doe 146096 h (by omega)
  have hval : ncor 146096 = 145999 := by decide
  have hy399 : yoeF doe ≤ 399 := by
    unfold yoeF
    omega
  refine ⟨hy399, ?_, ?_⟩
  · by_contra hcon
    push_neg at hcon
    have hy1 : 1 ≤ yoeF doe := by
      rcases Nat.eq_zero_or_pos (yoeF doe) with h0 | h1
      · rw [h0] at hcon; unfold fdays at hcon; omega
      · exact h1
    have htile := fdays_tile (yoeF doe - 1) (by omega)
    have hq := qYear_all (yoeF doe - 1) (by omega)
    have hdoe : doe ≤ yEnd (yoeF doe - 1) := by
      have hyy : yoeF doe - 1 + 1 = yoeF doe := by omega
      rw [hyy] at htile
      omega
    have hyB : yEnd (yoeF doe - 1) ≤ 146096 := yEnd_le (yoeF doe - 1) (by omega)
    have hmono := ncor_mono doe (yEnd (yoeF doe - 1)) hdoe hyB
    omega
  · by_contra hcon
    push_neg at hcon
    rcases Nat.lt_or_ge (yoeF doe) 399 with hlt | hge
    · have htile := fdays_tile (yoeF doe) hlt
      have hq := qYear_all (yoeF doe + 1) (by omega)
      have hf : fdays (yoeF doe + 1) ≤ doe := by omega
      have hmono := ncor_mono (fdays (yoeF doe + 1)) doe hf h
      omega
    · have h399 : yoeF doe = 399 := by omega
      rw [h399] at hcon
      have : yEnd 399 = 146096 := by decide
      omega

/-- The interval `[fdays y, yEnd y]` determines the year of era. -/
theorem yoe_unique (doe y : Nat) (hdoe : doe ≤ 146096) (hy : y ≤ 399)
    (h1 : fdays y ≤ doe) (h2 : doe ≤ yEnd y) : yoeF doe = y := by
  obtain ⟨hm1, hm2, hm3⟩ := yoeMaster doe hdoe
  rcases Nat.lt_trichotomy (yoeF doe) y with hlt | heq | hgt
  · have htile := fdays_tile (yoeF doe) (by omega)
    have hmono := fdays_mono (yoeF doe + 1) y (by omega)
    omega
  · exact heq
  · have htile := fdays_tile y (by omega)
    have hmono := fdays_mono (y + 1) (yoeF doe) (by omega)
    omega

theorem leapBitYoe_le (y : Nat) : leapBitYoe y ≤ 1 := by
  unfold leapBitYoe; split <;> omega

/-- Moving to the next day inside one year of era. -/
theorem yoe_succ_same (doe : Nat) (h : doe < 146096)
    (hin : doe < yEnd (yoeF doe)) : yoeF (doe + 1) = yoeF doe := by
  obtain ⟨hm1, hm2, hm3⟩ := yoeMaster doe (by omega)
  exact yoe_unique (doe + 1) (yoeF doe) (by omega) hm1 (by omega) (by omega)

/-- Moving to the next day across a year-of-era boundary. -/
theorem yoe_succ_next (doe : Nat) (h : doe < 146096)
    (hend : doe = yEnd (yoeF doe)) : yoeF (doe + 1) = yoeF doe + 1 := by
  obtain ⟨hm1, hm2, hm3⟩ := yoeMaster doe (by omega)
  have hne : yoeF doe < 399 := by
    rcases Nat.lt_or_ge (yoeF doe) 399 with hlt | hge
    · exact hlt
    · have h399 : yoeF doe = 399 := by omega
      rw [h399] at hend
      have : yEnd 399 = 146096 := by decide
      omega
  have htile := fdays_tile (yoeF doe) hne
  have hb := leapBitYoe_le (yoeF doe + 1)
  refine yoe_unique (doe + 1) (yoeF doe + 1) (by omega) (by omega) (by omega) ?_
  unfold yEnd
  omega

theorem monthFacts (doy : Nat) (h : doy ≤ 365) :
    gdays (mpF doy) ≤ doy ∧ mpF doy ≤ 11 ∧ doy - gdays (mpF doy) ≤ 30 := by
  unfold gdays mpF
  omega

theorem doyF_le (doe : Nat) (h : doe ≤ 146096) :
    doyF doe ≤ 364 + leapBitYoe (yoeF doe) := by
  obtain ⟨hm1, hm2, hm3⟩ := yoeMaster doe h
  unfold doyF
  unfold yEnd at hm3
  omega

/-- Reconstruction of the day of era from its year/month/day parts. -/
theorem core_reconstruct (doe : Nat) (h : doe ≤ 146096) :
    fdays (yoeF doe) + (gdays (mpF (doyF doe)) + dF doe - 1) = doe := by
  obtain ⟨hm1, hm2, hm3⟩ := yoeMaster doe h
  have hdoy : doyF doe ≤ 365 := by
    have := doyF_le doe h
    have := leapBitYoe_le (yoeF doe)
    omega
  obtain ⟨hg, _, _⟩ := monthFacts (doyF doe) hdoy
  unfold dF
  unfold doyF at *
  omega

theorem isLeap_cast (era : Int) (w : Nat) : isLeap (era * 400 + w) = leapW w := by
  unfold isLeap leapW
  have h4 : (era * 400 + (w : Int)) % 4 = (w : Int) % 4 := by omega
  have h100 : (era * 400 + (w : Int)) % 100 = (w : Int) % 100 := by omega
  have h400 : (era * 400 + (w : Int)) % 400 = (w : Int) % 400 := by omega
  rw [h4, h100, h400, decide_eq_decide]
  omega

theorem dim_cast (era : Int) (w m : Nat) :
    daysInMonth (era * 400 + (w : Int)) (m : Int) = ((dimW w m : Nat) : Int) := by
  simp only [daysInMonth, dimW, isLeap_cast]
  split_ifs <;> omega

theorem next_cast (era : Int) (w m d : Nat) :
    nextCalendarDay (era * 400 + (w : Int), (m : Int), (d : Int)) =
      (era * 400 + ((nextW (w, m, d)).1 : Int), ((nextW (w, m, d)).2.1 : Int),
        ((nextW (w, m, d)).2.2 : Int)) := by
  simp only [nextCalendarDay, nextW, dim_cast]
  split_ifs <;>
    simp only [Prod.mk.injEq, Nat.cast_add, Nat.cast_one, and_true, true_and] <;>
    omega

/-- Month-length table through the `gdays` offsets (non-February). -/
theorem mp_tab (mp : Nat) (h : mp ≤ 10) (w : Nat) :
    dimW w (if mp < 10 then mp + 3 else mp - 9) = gdays (mp + 1) - gdays mp := by
  interval_cases mp <;> simp [dimW, gdays]

theorem leapBit_eq (yoe : Nat) (h : yoe ≤ 399) :
    leapBitYoe yoe = if leapW (yoe + 1) then 1 else 0 := by
  unfold leapBitYoe leapW
  simp only [decide_eq_true_eq]
  split <;> split <;> omega

/-- Calendar succession at the level of era-relative parts. -/
theorem core_succ (doe : Nat) (h : doe < 146096) :
    (wF (doe + 1), mF (doe + 1), dF (doe + 1)) = nextW (wF doe, mF doe, dF doe) := by
  obtain ⟨hy399, hfd, hyE⟩ := yoeMaster doe (by omega)
  have hbit := leapBitYoe_le (yoeF doe)
  by_cases hend : doe = yEnd (yoeF doe)
  · -- last day of the March-based year: February rolls into March
    have hylt : yoeF doe < 399 := by
      rcases Nat.lt_or_ge (yoeF doe) 399 with hlt | hge
      · exact hlt
      · exfalso
        have h399 : yoeF doe = 399 := by omega
        rw [h399] at hend
        have hv : yEnd 399 = 146096 := by decide
        omega
    have hsucc := yoe_succ_next doe h hend
    have htile := fdays_tile (yoeF doe) hylt
    have hdoy : doyF doe = 364 + leapBitYoe (yoeF doe) := by
      unfold doyF
      unfold yEnd at hend
      omega
    have hmp : mpF (doyF doe) = 11 := by
      unfold mpF; rw [hdoy]; omega
    have hm : mF doe = 2 := by
      unfold mF; rw [hmp]; decide
    have hw : wF doe = yoeF doe + 1 := by
      unfold wF; rw [hm]; simp
    have hd : dF doe = 28 + leapBitYoe (yoeF doe) := by
      unfold dF; rw [hmp, hdoy]
      unfold gdays; omega
    have hdoy2 : doyF (doe + 1) = 0 := by
      unfold doyF; rw [hsucc]; omega
    have hmp2 : mpF (doyF (doe + 1)) = 0 := by rw [hdoy2]; decide
    have hm2 : mF (doe + 1) = 3 := by
      unfold mF; rw [hmp2]; decide
    have hd2 : dF (doe + 1) = 1 := by
      unfold dF; rw [hmp2, hdoy2]; decide
    have hw2 : wF (doe + 1) = yoeF doe + 1 := by
      unfold wF; rw [hm2, hsucc]; simp
    have hleap := leapBit_eq (yoeF doe) hy399
    have hdimv : dimW (wF doe) (mF doe) = 28 + leapBitYoe (yoeF doe) := by
      rw [hm, hw, hleap]
      by_cases hL : leapW (yoeF doe + 1) = true <;> simp [dimW, hL]
    rw [hm2, hd2, hw2]
    simp only [nextW]
    rw [hdimv, hd, hm, hw]
    have hnolt : ¬28 + leapBitYoe (yoeF doe) < 28 + leapBitYoe (yoeF doe) := by omega
    rw [if_neg hnolt, if_pos (by omega : (2:Nat) < 12)]
  · -- inside the year
    have hin : doe < yEnd (yoeF doe) := by omega
    have hsucc := yoe_succ_same doe h hin
    have hdoy2 : doyF (doe + 1) = doyF doe + 1 := by
      unfold doyF; rw [hsucc]; omega
    have hdoyB : doyF doe + 1 ≤ 364 + leapBitYoe (yoeF doe) := by
      unfold doyF
      unfold yEnd at hin
      omega
    obtain ⟨hg, hmp11, hd30⟩ := monthFacts (doyF doe) (by omega)
    obtain ⟨hg2, hmp112, hd302⟩ := monthFacts (doyF doe + 1) (by omega)
    have hstep : mpF (doyF doe + 1) = mpF (doyF doe) ∨
        mpF (doyF doe + 1) = mpF (doyF doe) + 1 := by
      unfold mpF; omega
    rcases hstep with hsame | hnext
    · -- same month: day increments
      have hm2 : mF (doe + 1) = mF doe := by
        unfold mF; rw [hdoy2, hsame]
      have hd2 : dF (doe + 1) = dF doe + 1 := by
        unfold dF; rw [hdoy2, hsame]; omega
      have hw2 : wF (doe + 1) = wF doe := by
        unfold wF; rw [hm2, hsucc]
      have hlt : dF doe < dimW (wF doe) (mF doe) := by
        by_cases hfeb : mpF (doyF doe) = 11
        · have hmv : mF doe = 2 := by unfold mF; rw [hfeb]; decide
          have hwv : wF doe = yoeF doe + 1 := by unfold wF; rw [hmv]; simp
          have hdlow : 337 ≤ doyF doe := by
            have h1 := hfeb
            unfold mpF at h1
            omega
          have hdv : dF doe = doyF doe - 336 := by
            unfold dF; rw [hfeb]; unfold gdays; omega
          have hleap := leapBit_eq (yoeF doe) hy399
          have hdimv : dimW (wF doe) (mF doe) = 28 + leapBitYoe (yoeF doe) := by
            rw [hmv, hwv, hleap]
            by_cases hL : leapW (yoeF doe + 1) = true <;> simp [dimW, hL]
          rw [hdv, hdimv]
          omega
        · have hmple : mpF (doyF doe) ≤ 10 := by omega
          have htab := mp_tab (mpF (doyF doe)) hmple (wF doe)
          have hmv : mF doe = if mpF (doyF doe) < 10 then mpF (doyF doe) + 3
              else mpF (doyF doe) - 9 := rfl
          have hdv : dF doe = doyF doe - gdays (mpF (doyF doe)) + 1 := rfl
          rw [hmv, htab, hdv]
          have h1 := hsame
          unfold mpF at h1
          unfold gdays mpF
          omega
      rw [hm2, hd2, hw2]
      simp only [nextW]
      rw [if_pos hlt]
    · -- month rollover
      have hd2 : dF (doe + 1) = 1 := by
        unfold dF; rw [hdoy2, hnext]
        unfold mpF at hnext
        unfold gdays mpF
        omega
      have hmple : mpF (doyF doe) ≤ 10 := by omega
      have htab := mp_tab (mpF (doyF doe)) hmple (wF doe)
      have hge : ¬dF doe < dimW (wF doe) (mF doe) := by
        have hmv : mF doe = if mpF (doyF doe) < 10 then mpF (doyF doe) + 3
            else mpF (doyF doe) - 9 := rfl
        rw [hmv, htab]
        unfold mpF at hnext
        unfold dF gdays mpF
        omega
      simp only [nextW]
      rw [if_neg hge]
      rcases Nat.lt_trichotomy (mpF (doyF doe)) 9 with hlt9 | heq9 | hgt9
      · -- March..November: month increments, same civil year
        have hmv : mF doe = mpF (doyF doe) + 3 := by
          unfold mF; rw [if_pos (by omega)]
        have hmv2 : mF (doe + 1) = mpF (doyF doe) + 4 := by
          unfold mF; rw [hdoy2, hnext, if_pos (by omega)]
        have hwv : wF doe = yoeF doe := by
          unfold wF; rw [hmv, if_neg (by omega)]
        have hwv2 : wF (doe + 1) = yoeF doe := by
          unfold wF; rw [hmv2, hsucc, if_neg (by omega)]
        rw [if_pos (by rw [hmv]; omega)]
        rw [hmv, hmv2, hwv, hwv2, hd2]
      · -- December rolls into January of the next civil year
        have hmv : mF doe = 12 := by unfold mF; rw [heq9]; decide
        have hmv2 : mF (doe + 1) = 1 := by
          unfold mF; rw [hdoy2, hnext, heq9]; decide
        have hwv : wF doe = yoeF doe := by unfold wF; rw [hmv]; simp
        have hwv2 : wF (doe + 1) = yoeF doe + 1 := by
          unfold wF; rw [hmv2, hsucc]; simp
        rw [if_neg (by rw [hmv]; omega)]
        rw [hmv2, hwv, hwv2, hd2]
      · -- January rolls into February
        have heq10 : mpF (doyF doe) = 10 := by omega
        have hmv : mF doe = 1 := by unfold mF; rw [heq10]; decide
        have hmv2 : mF (doe + 1) = 2 := by
          unfold mF; rw [hdoy2, hnext, heq10]; decide
        have hwv : wF doe = yoeF doe + 1 := by unfold wF; rw [hmv]; simp
        have hwv2 : wF (doe + 1) = yoeF doe + 1 := by
          unfold wF; rw [hmv2, hsucc]; simp
        rw [if_pos (by rw [hmv]; omega)]
        rw [hmv, hmv2, hwv, hwv2, hd2]

/-- `daysFromCivil` is a left inverse of `civilFromDays`. -/
theorem civil_roundtrip (day : Int) :
    daysFromCivil (civilFromDays day).1 (civilFromDays day).2.1
      (civilFromDays day).2.2 = day := by
  have hz : 0 ≤ (day + 719468) % 146097 ∧ (day + 719468) % 146097 < 146097 ∧
      day + 719468 = 146097 * ((day + 719468) / 146097) + (day + 719468) % 146097 := by
    omega
  set era : Int := (day + 719468) / 146097 with heraDef
  set doe : Nat := ((day + 719468) % 146097).toNat with hdoeDef
  have hdoe96 : doe ≤ 146096 := by omega
  have hcast : (doe : Int) = (day + 719468) % 146097 := by omega
  obtain ⟨hy399, hfd, hyE⟩ := yoeMaster doe hdoe96
  have hbit := leapBitYoe_le (yoeF doe)
  have hdoy365 : doyF doe ≤ 365 := by
    have := doyF_le doe hdoe96
    omega
  obtain ⟨hg, hmp11, hd30⟩ := monthFacts (doyF doe) hdoy365
  have hrec := core_reconstruct doe hdoe96
  have hshow : civilFromDays day =
      (era * 400 + ((wF doe : Nat) : Int), ((mF doe : Nat) : Int),
        ((dF doe : Nat) : Int)) := rfl
  rw [hshow]
  have hD2 : (((dF doe : Nat) : Int)).toNat = dF doe := by omega
  have hF : yoeF doe * 365 + yoeF doe / 4 - yoeF doe / 100 = fdays (yoeF doe) := by
    unfold fdays; omega
  by_cases hmp : mpF (doyF doe) < 10
  · have hmv : mF doe = mpF (doyF doe) + 3 := by unfold mF; rw [if_pos hmp]
    have hwv : wF doe = yoeF doe := by
      unfold wF; rw [hmv, if_neg (by omega)]
    simp only [daysFromCivil]
    rw [hmv, hwv]
    rw [if_neg (by push_cast; omega), if_pos (by push_cast; omega)]
    have hE2 : (era * 400 + ((yoeF doe : Nat) : Int)) / 400 = era := by omega
    have hY2 : ((era * 400 + ((yoeF doe : Nat) : Int)) % 400).toNat = yoeF doe := by
      omega
    have hM2 : (((mpF (doyF doe) + 3 : Nat) : Int) - 3).toNat = mpF (doyF doe) := by
      omega
    rw [hE2, hY2, hM2, hD2, hF]
    have hG : (153 * mpF (doyF doe) + 2) / 5 = gdays (mpF (doyF doe)) := rfl
    rw [hG, hrec]
    omega
  · have hmv : mF doe = mpF (doyF doe) - 9 := by unfold mF; rw [if_neg hmp]
    have hwv : wF doe = yoeF doe + 1 := by
      unfold wF; rw [hmv, if_pos (by omega)]
    simp only [daysFromCivil]
    rw [hmv, hwv]
    rw [if_pos (by omega), if_neg (by omega)]
    have hE2 : (era * 400 + ((yoeF doe + 1 : Nat) : Int) - 1) / 400 = era := by omega
    have hY2 : ((era * 400 + ((yoeF doe + 1 : Nat) : Int) - 1) % 400).toNat
        = yoeF doe := by omega
    have hM2 : (((mpF (doyF doe) - 9 : Nat) : Int) + 9).toNat = mpF (doyF doe) := by
      omega
    rw [hE2, hY2, hM2, hD2, hF]
    have hG : (153 * mpF (doyF doe) + 2) / 5 = gdays (mpF (doyF doe)) := rfl
    rw [hG, hrec]
    omega

/-- Adding one day to a day number advances the civil date by one
calendar day. -/
theorem civil_succ (day : Int) :
    civilFromDays (day + 1) = nextCalendarDay (civilFromDays day) := by
  have hz : 0 ≤ (day + 719468) % 146097 ∧ (day + 719468) % 146097 < 146097 ∧
      day + 719468 = 146097 * ((day + 719468) / 146097) + (day + 719468) % 146097 := by
    omega
  set era : Int := (day + 719468) / 146097 with heraDef
  set doe : Nat := ((day + 719468) % 146097).toNat with hdoeDef
  have hdoe96 : doe ≤ 146096 := by omega
  have hcast : (doe : Int) = (day + 719468) % 146097 := by omega
  have hshow : civilFromDays day =
      (era * 400 + ((wF doe : Nat) : Int), ((mF doe : Nat) : Int),
        ((dF doe : Nat) : Int)) := rfl
  by_cases hlast : doe = 146096
  · -- last day of the 400-year era
    have e1 : (day + 1 + 719468) / 146097 = era + 1 := by omega
    have e2 : ((day + 1 + 719468) % 146097).toNat = 0 := by omega
    have h2 : civilFromDays (day + 1) =
        ((era + 1) * 400 + ((wF 0 : Nat) : Int), ((mF 0 : Nat) : Int),
          ((dF 0 : Nat) : Int)) := by
      show ((day + 1 + 719468) / 146097 * 400 +
          ((wF ((day + 1 + 719468) % 146097).toNat : Nat) : Int),
          ((mF ((day + 1 + 719468) % 146097).toNat : Nat) : Int),
          ((dF ((day + 1 + 719468) % 146097).toNat : Nat) : Int)) = _
      rw [e1, e2]
    have hv0 : wF 0 = 0 ∧ mF 0 = 3 ∧ dF 0 = 1 := by decide
    have hv9 : wF 146096 = 400 ∧ mF 146096 = 2 ∧ dF 146096 = 29 := by decide
    have hnx : nextW (400, 2, 29) = (400, 3, 1) := by decide
    rw [h2, hshow, hlast, hv0.1, hv0.2.1, hv0.2.2, hv9.1, hv9.2.1, hv9.2.2]
    rw [next_cast era 400 2 29, hnx]
    rw [show (era + 1) * 400 + (((0 : Nat) : Int)) = era * 400 + (((400 : Nat) : Int))
      from by push_cast; ring]
  · -- inside the era
    have e1 : (day + 1 + 719468) / 146097 = era := by omega
    have e2 : ((day + 1 + 719468) % 146097).toNat = doe + 1 := by omega
    have h2 : civilFromDays (day + 1) =
        (era * 400 + ((wF (doe + 1) : Nat) : Int), ((mF (doe + 1) : Nat) : Int),
          ((dF (doe + 1) : Nat) : Int)) := by
      show ((day + 1 + 719468) / 146097 * 400 +
          ((wF ((day + 1 + 719468) % 146097).toNat : Nat) : Int),
          ((mF ((day + 1 + 719468) % 146097).toNat : Nat) : Int),
          ((dF ((day + 1 + 719468) % 146097).toNat : Nat) : Int)) = _
      rw [e1, e2]
    rw [h2, hshow, next_cast]
    rw [← core_succ doe (by omega)]

theorem addDaysIST_epochDay (t days : Int) :
    istEpochDay (addDaysIST t days) = istEpochDay t + days := by
  unfold addDaysIST getISTDateParts
  rw [civil_roundtrip (istEpochDay t)]
  unfold istEpochDay istOffsetMs msPerDay
  omega

/-- Claim C8: for every reference instant, the grounded tomorrow
(`addDaysIST t 1`) falls on exactly the next calendar day after the
grounded today in the fixed Asia/Kolkata zone, computed via the zone's
date parts: its parts are `nextCalendarDay` of the parts of `t`, and
the rendered ISO date agrees. -/
theorem c8_tomorrow_is_next_calendar_day (t : Int) :
    getISTDateParts (addDaysIST t 1) = nextCalendarDay (getISTDateParts t) ∧
    istDateISO (addDaysIST t 1) = isoOfParts (nextCalendarDay (getISTDateParts t)) := by
  have h1 : getISTDateParts (addDaysIST t 1) = nextCalendarDay (getISTDateParts t) := by
    unfold getISTDateParts
    rw [addDaysIST_epochDay]
    exact civil_succ (istEpochDay t)
  exact ⟨h1, by unfold istDateISO; rw [h1]⟩

/-! ## Characterization lemmas for the turn pipeline -/

theorem interpretUserQuery_snd (env : TurnEnv) (raw : String) :
    (interpretUserQuery env raw).2 =
      { systemInstruction := buildInterpreterPrompt env.langAtInterp env.interpDates,
        contents := [{ role := "user", text := raw }] } := by
  unfold interpretUserQuery
  cases env.interpResult <;> rfl

theorem callGuruji_failure (env : TurnEnv) (pending0 : Option RetryToken)
    (session : Session) (raw : String) (status : Int) (body : Option JVal)
    (hkey : env.apiKey ≠ "") (hon : env.online = true)
    (hres : env.gurujiResult = FetchResult.failure status body) :
    callGuruji env pending0 session raw =
      { messages := session.messages,
        pendingRetry :=
          (gurujiFailureEffects pending0 session.id raw env.nowMs status body).2,
        toasts :=
          [(gurujiFailureEffects pending0 session.id raw env.nowMs status body).1],
        interpCall := some (interpretUserQuery env raw).2,
        gurujiCall := some (buildGurujiPayload env.langAtGuruji env.gurujiTodayHuman
          env.gurujiTodayISO session.messages (interpretUserQuery env raw).1),
        translateCalls := [] } := by
  unfold callGuruji
  rw [if_neg hkey, if_neg (by rw [hon]; simp), hres]

theorem callGuruji_success (env : TurnEnv) (pending0 : Option RetryToken)
    (session : Session) (raw : String) (j : JVal)
    (hkey : env.apiKey ≠ "") (hon : env.online = true)
    (hres : env.gurujiResult = FetchResult.success j) :
    callGuruji env pending0 session raw =
      { messages := session.messages ++
          [{ role := Role.assistant,
             content := (translateToMarathiIfNeeded env
               (if jsTrim (extractTextFromGemini j) = "" then "[No response]"
                else jsTrim (extractTextFromGemini j))).1,
             tsISO := env.assistantTs }],
        pendingRetry := none, toasts := [],
        interpCall := some (interpretUserQuery env raw).2,
        gurujiCall := some (buildGurujiPayload env.langAtGuruji env.gurujiTodayHuman
          env.gurujiTodayISO session.messages (interpretUserQuery env raw).1),
        translateCalls :=
          (translateToMarathiIfNeeded env
            (if jsTrim (extractTextFromGemini j) = "" then "[No response]"
             else jsTrim (extractTextFromGemini j))).2 } := by
  unfold callGuruji
  rw [if_neg hkey, if_neg (by rw [hon]; simp), hres]

theorem callGuruji_messages_of_failure (env : TurnEnv) (pending0 : Option RetryToken)
    (session : Session) (raw : String) (status : Int) (body : Option JVal)
    (hres : env.gurujiResult = FetchResult.failure status body) :
    (callGuruji env pending0 session raw).messages = session.messages := by
  unfold callGuruji
  by_cases hkey : env.apiKey = ""
  · rw [if_pos hkey]
  · rw [if_neg hkey]
    by_cases hon : env.online = false
    · rw [if_pos hon]
    · rw [if_neg hon, hres]

/-! ## Claim theorems -/

/-- Claim C1 (counterexample): a session log of 19 messages yields a
Generating-call contents list of length 19, not the claimed `N = 18` —
the code slices the last 18 log entries and then pushes the final user
text as an extra element. -/
theorem c1_window_length_cex :
    (buildGurujiPayload Lang.mr "h" "d" msgs19 "final").contents.length ≠ 18 ∧
    (buildGurujiPayload Lang.mr "h" "d" msgs19 "final").contents.length = 19 := by
  constructor <;> decide

/-- Claim C1 (amended): for every session log with at least
`MAX_HISTORY = 18` entries, the contents list built by
`buildGurujiPayload` has length exactly `MAX_HISTORY + 1 = 19` — the
trailing window of 18 log entries plus the explicitly appended final
user turn — and its last element is the user turn carrying the final
(possibly rewritten) query text.  `buildGurujiPayload` is a pure
function of the log and does not mutate it. -/
theorem c1_window_length_amended (lang : Lang) (th ti : String)
    (msgs : List Message) (finalUserText : String)
    (h : MAX_HISTORY ≤ msgs.length) :
    (buildGurujiPayload lang th ti msgs finalUserText).contents.length =
      MAX_HISTORY + 1 ∧
    (buildGurujiPayload lang th ti msgs finalUserText).contents.getLast? =
      some { role := "user", text := finalUserText } := by
  unfold buildGurujiPayload sliceLast
  constructor
  · simp only [List.length_append, List.length_map, List.length_drop,
      List.length_singleton]
    omega
  · simp

/-- Witness for the amended C1 at a concrete 19-message log. -/
theorem c1_window_length_amended_witness :
    (buildGurujiPayload Lang.mr "h" "d" msgs19 "final").contents.length =
      MAX_HISTORY + 1 ∧
    (buildGurujiPayload Lang.mr "h" "d" msgs19 "final").contents.getLast? =
      some { role := "user", text := "final" } :=
  c1_window_length_amended Lang.mr "h" "d" msgs19 "final" (by decide)

/-- Claim C2: a Generating-stage 429 whose body parses to a positive
retry delay of `n` seconds sets the pending-retry token to the current
time plus `n * 1000` milliseconds with the original raw user text,
appends no assistant message, and reports the specific rate-limited
toast. -/
theorem c2_rate_limit_schedules_retry (env : TurnEnv)
    (pending0 : Option RetryToken) (session : Session) (raw : String)
    (body : Option JVal) (n : Int)
    (hkey : env.apiKey ≠ "") (hon : env.online = true)
    (hres : env.gurujiResult = FetchResult.failure 429 body)
    (hparse : parseRetryDelaySeconds body = some n) (hpos : 0 < n) :
    (callGuruji env pending0 session raw).pendingRetry =
      some { sessionId := session.id, lastUserText := raw,
             retryAtMs := env.nowMs + n * 1000 } ∧
    (callGuruji env pending0 session raw).messages = session.messages ∧
    (callGuruji env pending0 session raw).toasts =
      ["Rate limit. Retry after " ++ toString n ++ "s."] := by
  have heff : gurujiFailureEffects pending0 session.id raw env.nowMs 429 body =
      ("Rate limit. Retry after " ++ toString n ++ "s.",
        some { sessionId := session.id, lastUserText := raw,
               retryAtMs := env.nowMs + n * 1000 }) := by
    unfold gurujiFailureEffects
    rw [if_pos rfl]
    simp only [hparse]
    rw [if_pos (by omega)]
  rw [callGuruji_failure env pending0 session raw 429 body hkey hon hres, heff]
  exact ⟨rfl, rfl, rfl⟩

/-- Witness for C2 with the canonical RetryInfo body carrying `"30s"`. -/
theorem c2_rate_limit_schedules_retry_witness :
    (callGuruji { baseEnv with
        gurujiResult := FetchResult.failure 429 (some retryBody30) }
      none session0 "hello").pendingRetry =
      some { sessionId := session0.id, lastUserText := "hello",
             retryAtMs := { baseEnv with
               gurujiResult := FetchResult.failure 429 (some retryBody30) }.nowMs
                 + 30 * 1000 } ∧
    (callGuruji { baseEnv with
        gurujiResult := FetchResult.failure 429 (some retryBody30) }
      none session0 "hello").messages = session0.messages ∧
    (callGuruji { baseEnv with
        gurujiResult := FetchResult.failure 429 (some retryBody30) }
      none session0 "hello").toasts =
      ["Rate limit. Retry after " ++ toString (30 : Int) ++ "s."] :=
  c2_rate_limit_schedules_retry _ none session0 "hello" (some retryBody30) 30
    (by decide) rfl rfl (by decide) (by decide)

/-- Claim C3 (counterexample): a due token consumed by the online
event whose re-invocation fails (HTTP 500) is NOT cleared — it is
still in the slot afterwards, so a further automatic retry can occur;
and a new user send whose turn fails (HTTP 500) does not discard the
token either. -/
theorem c3_token_cleared_cex :
    (onlineListener baseEnv st0 1000).pendingRetry = some tok0 ∧
    (insertUserMessage baseEnv (some tok0) session0 "new question" "t2").pendingRetry
      = some tok0 := by
  constructor <;> decide

/-- Claim C3 (amended): when the online event consumes a due token
whose session is active, the slot afterwards holds exactly what the
re-invocation leaves: `none` on success, a fresh token on another 429
with a truthy parsed delay, and otherwise the ORIGINAL token — it is
not cleared regardless of outcome.  Likewise a new user send leaves
the token in place unless its own turn succeeds (or reschedules it on
a 429-with-delay). -/
theorem c3_token_lifetime_amended (env : TurnEnv) (st : AppState)
    (tok : RetryToken) (s : Session) (now : Int)
    (htok : st.pendingRetry = some tok) (hdue : tok.retryAtMs ≤ now)
    (hact : getActiveSession st = some s) (hsid : tok.sessionId = s.id)
    (hkey : env.apiKey ≠ "") (hon : env.online = true) :
    (onlineListener env st now).pendingRetry =
      (match env.gurujiResult with
       | FetchResult.success _ => none
       | FetchResult.failure status body =>
         (gurujiFailureEffects (some tok) s.id tok.lastUserText env.nowMs
           status body).2) ∧
    (∀ (sess : Session) (rawText ts : String), jsTrim rawText ≠ "" →
      (insertUserMessage env (some tok) sess rawText ts).pendingRetry =
        (match env.gurujiResult with
         | FetchResult.success _ => none
         | FetchResult.failure status body =>
           (gurujiFailureEffects (some tok) sess.id (jsTrim rawText) env.nowMs
             status body).2)) := by
  constructor
  · unfold onlineListener
    simp only [htok]
    rw [if_pos (by omega)]
    simp only [hact]
    rw [if_pos hsid]
    cases hres : env.gurujiResult with
    | success j =>
      rw [callGuruji_success env (some tok) s tok.lastUserText j hkey hon hres]
    | failure status body =>
      rw [callGuruji_failure env (some tok) s tok.lastUserText status body
        hkey hon hres]
  · intro sess rawText ts htext
    unfold insertUserMessage
    rw [if_neg htext]
    cases hres : env.gurujiResult with
    | success j =>
      rw [callGuruji_success env (some tok) _ (jsTrim rawText) j hkey hon hres]
    | failure status body =>
      rw [callGuruji_failure env (some tok) _ (jsTrim rawText) status body
        hkey hon hres]

/-- Witness for the amended C3: re-invocation failing with 500 leaves
the original token; a failing new send leaves it too. -/
theorem c3_token_lifetime_amended_witness :
    (onlineListener baseEnv st0 1000).pendingRetry =
      (match baseEnv.gurujiResult with
       | FetchResult.success _ => none
       | FetchResult.failure status body =>
         (gurujiFailureEffects (some tok0) session0.id tok0.lastUserText
           baseEnv.nowMs status body).2) ∧
    (∀ (sess : Session) (rawText ts : String), jsTrim rawText ≠ "" →
      (insertUserMessage baseEnv (some tok0) sess rawText ts).pendingRetry =
        (match baseEnv.gurujiResult with
         | FetchResult.success _ => none
         | FetchResult.failure status body =>
           (gurujiFailureEffects (some tok0) sess.id (jsTrim rawText) baseEnv.nowMs
             status body).2)) :=
  c3_token_lifetime_amended baseEnv st0 tok0 session0 1000 rfl (by decide)
    (by decide) rfl (by decide) rfl

/-- Claim C4: on every Generating failure (any non-ok status, timeout
or network error = status 0), the turn appends no assistant message:
the log after the turn is exactly the prior log plus the user message
appended at send time. -/
theorem c4_failure_preserves_log (env : TurnEnv) (pending0 : Option RetryToken)
    (session : Session) (rawText ts : String) (status : Int) (body : Option JVal)
    (hres : env.gurujiResult = FetchResult.failure status body)
    (htext : jsTrim rawText ≠ "") :
    (insertUserMessage env pending0 session rawText ts).messages =
      session.messages ++
        [{ role := Role.user, content := jsTrim rawText, tsISO := ts }] := by
  unfold insertUserMessage
  rw [if_neg htext]
  rw [callGuruji_messages_of_failure env pending0 _ (jsTrim rawText) status body hres]

/-- Witness for C4 at a concrete failing turn. -/
theorem c4_failure_preserves_log_witness :
    (insertUserMessage baseEnv none session0 "hello" "t2").messages =
      session0.messages ++
        [{ role := Role.user, content := jsTrim "hello", tsISO := "t2" }] :=
  c4_failure_preserves_log baseEnv none session0 "hello" "t2" 500 none rfl
    (by decide)

/-- Claim C5 (counterexample): a Marathi-mode reply with exactly 40
Latin letters and no Devanagari does NOT trigger the corrective
Translation call — the code requires strictly more than 40 Latin
letters, while the claim says "at least 40". -/
theorem c5_translation_threshold_cex :
    latinLetterCount reply40 = 40 ∧ devanagariCount reply40 = 0 ∧
    baseEnv.langAtTranslate = Lang.mr ∧
    (translateToMarathiIfNeeded baseEnv reply40).2 = [] ∧
    (translateToMarathiIfNeeded baseEnv reply40).1 = reply40 := by
  refine ⟨by decide, by decide, rfl, by decide, by decide⟩

/-- Claim C5 (amended): in Marathi mode, a Generating reply with MORE
than 40 Latin letters and fewer than 10 Devanagari characters triggers
exactly one corrective Translation call whose sole input is the
offending reply; and if that call fails or yields empty output, the
stored assistant message is the original untranslated reply. -/
theorem c5_translation_correction_amended (env : TurnEnv)
    (pending0 : Option RetryToken) (session : Session) (raw : String)
    (j : JVal) (reply : String)
    (hkey : env.apiKey ≠ "") (hon : env.online = true)
    (hres : env.gurujiResult = FetchResult.success j)
    (hreply : jsTrim (extractTextFromGemini j) = reply) (hne : reply ≠ "")
    (hlang : env.langAtTranslate = Lang.mr)
    (hlatin : 40 < latinLetterCount reply) (hdev : devanagariCount reply < 10) :
    (callGuruji env pending0 session raw).translateCalls =
      [{ systemInstruction := TRANSLATE_INSTRUCTION,
         contents := [{ role := "user", text := reply }] }] ∧
    (fetchFailedOrEmpty env.translateResult = true →
      (callGuruji env pending0 session raw).messages =
        session.messages ++
          [{ role := Role.assistant, content := reply, tsISO := env.assistantTs }]) := by
  rw [callGuruji_success env pending0 session raw j hkey hon hres]
  rw [hreply, if_neg hne]
  have hlooks : looksEnglish reply = true := by
    unfold looksEnglish
    exact decide_eq_true ⟨hlatin, hdev⟩
  unfold translateToMarathiIfNeeded
  rw [if_neg (by rw [hlang]; simp), hlooks]
  simp only [Bool.not_true, if_neg (by simp : ¬(false = true))]
  constructor
  · cases env.translateResult <;> rfl
  · intro hbad
    unfold fetchFailedOrEmpty at hbad
    cases htr : env.translateResult with
    | failure st b => rfl
    | success tj =>
      rw [htr] at hbad
      simp only [beq_iff_eq] at hbad
      simp [hbad]

/-- Witness for the amended C5: a 41-Latin-letter reply in Marathi mode
with a failing Translation call keeps the original reply. -/
theorem c5_translation_correction_amended_witness :
    (callGuruji envC5 none session0 "hi").translateCalls =
      [{ systemInstruction := TRANSLATE_INSTRUCTION,
         contents := [{ role := "user", text := reply41 }] }] ∧
    (fetchFailedOrEmpty envC5.translateResult = true →
      (callGuruji envC5 none session0 "hi").messages =
        session0.messages ++
          [{ role := Role.assistant, content := reply41,
             tsISO := envC5.assistantTs }]) :=
  c5_translation_correction_amended envC5 none session0 "hi" gurujiSuccess41
    reply41 (by decide) rfl rfl (by decide) (by decide) rfl (by decide) (by decide)

/-- Claim C6 (counterexample): two runs of one turn that differ only in
the language mode read at the TranslationCheck stage (a mode change
after the turn started, the earlier stages having already read
Marathi) show DIFFERENT behaviour — one issues a corrective
Translation call and stores its output, the other issues none and
stores the raw reply — so the turn does not capture the mode once at
start. -/
theorem c6_mode_snapshot_cex :
    (callGuruji envC6A none session0 "hi").translateCalls.length = 1 ∧
    (callGuruji envC6B none session0 "hi").translateCalls.length = 0 ∧
    (callGuruji envC6A none session0 "hi").messages ≠
      (callGuruji envC6B none session0 "hi").messages := by
  refine ⟨by decide, by decide, by decide⟩

/-- Claim C6 (amended): each stage reads the language mode at its own
invocation: the Interpreter prompt uses the mode read inside
`interpretUserQuery`, the Guruji instruction the mode read inside
`buildGurujiPayload`, and the TranslationCheck runs only when the mode
read inside `translateToMarathiIfNeeded` is Marathi.  A mode change
between stages therefore affects the in-flight turn's later stages. -/
theorem c6_mode_per_stage_amended (env : TurnEnv)
    (pending0 : Option RetryToken) (session : Session) (raw : String)
    (hkey : env.apiKey ≠ "") (hon : env.online = true) :
    (callGuruji env pending0 session raw).interpCall =
      some { systemInstruction :=
               buildInterpreterPrompt env.langAtInterp env.interpDates,
             contents := [{ role := "user", text := raw }] } ∧
    (callGuruji env pending0 session raw).gurujiCall =
      some (buildGurujiPayload env.langAtGuruji env.gurujiTodayHuman
        env.gurujiTodayISO session.messages (interpretUserQuery env raw).1) ∧
    (env.langAtTranslate ≠ Lang.mr →
      (callGuruji env pending0 session raw).translateCalls = []) := by
  cases hres : env.gurujiResult with
  | failure status body =>
    rw [callGuruji_failure env pending0 session raw status body hkey hon hres,
      interpretUserQuery_snd]
    exact ⟨rfl, rfl, fun _ => rfl⟩
  | success j =>
    rw [callGuruji_success env pending0 session raw j hkey hon hres,
      interpretUserQuery_snd]
    refine ⟨rfl, rfl, fun hmr => ?_⟩
    unfold translateToMarathiIfNeeded
    rw [if_pos hmr]

/-- Witness for the amended C6 at a concrete turn. -/
theorem c6_mode_per_stage_amended_witness :
    (callGuruji baseEnv none session0 "hi").interpCall =
      some { systemInstruction :=
               buildInterpreterPrompt baseEnv.langAtInterp baseEnv.interpDates,
             contents := [{ role := "user", text := "hi" }] } ∧
    (callGuruji baseEnv none session0 "hi").gurujiCall =
      some (buildGurujiPayload baseEnv.langAtGuruji baseEnv.gurujiTodayHuman
        baseEnv.gurujiTodayISO session0.messages
        (interpretUserQuery baseEnv "hi").1) ∧
    (baseEnv.langAtTranslate ≠ Lang.mr →
      (callGuruji baseEnv none session0 "hi").translateCalls = []) :=
  c6_mode_per_stage_amended baseEnv none session0 "hi" (by decide) rfl

/-- Claim C7: whenever the Interpreter-stage call fails (non-ok status,
timeout/network failure, or empty/whitespace-only output),
`interpretUserQuery` returns the raw user text unmodified, and the
turn proceeds to the Generating stage with that raw text as the final
user turn — the failure neither surfaces nor aborts the turn. -/
theorem c7_interpreter_fallback (env : TurnEnv) (raw : String)
    (hfail : fetchFailedOrEmpty env.interpResult = true) :
    (interpretUserQuery env raw).1 = raw ∧
    (∀ (pending0 : Option RetryToken) (session : Session),
      env.apiKey ≠ "" → env.online = true →
      (callGuruji env pending0 session raw).gurujiCall =
        some (buildGurujiPayload env.langAtGuruji env.gurujiTodayHuman
          env.gurujiTodayISO session.messages raw)) := by
  have h1 : (interpretUserQuery env raw).1 = raw := by
    unfold interpretUserQuery
    unfold fetchFailedOrEmpty at hfail
    cases hint : env.interpResult with
    | failure status body => rfl
    | success j =>
      rw [hint] at hfail
      simp only [beq_iff_eq] at hfail
      simp [hfail]
  refine ⟨h1, fun pending0 session hkey hon => ?_⟩
  cases hres : env.gurujiResult with
  | failure status body =>
    rw [callGuruji_failure env pending0 session raw status body hkey hon hres, h1]
  | success j =>
    rw [callGuruji_success env pending0 session raw j hkey hon hres, h1]

/-- Witness for C7: a 500 interpreter failure falls back to the raw text. -/
theorem c7_interpreter_fallback_witness :
    (interpretUserQuery baseEnv "majhe bhavishya?").1 = "majhe bhavishya?" ∧
    (∀ (pending0 : Option RetryToken) (session : Session),
      baseEnv.apiKey ≠ "" → baseEnv.online = true →
      (callGuruji baseEnv pending0 session "majhe bhavishya?").gurujiCall =
        some (buildGurujiPayload baseEnv.langAtGuruji baseEnv.gurujiTodayHuman
          baseEnv.gurujiTodayISO session.messages "majhe bhavishya?")) :=
  c7_interpreter_fallback baseEnv "majhe bhavishya?" (by decide)

theorem partTextE_of_ne_null (p : JVal) (hp : p ≠ JVal.null) :
    partTextE p = Except.ok (partText p) := by
  cases p
  case null => exact absurd rfl hp
  all_goals rfl

theorem mapPartsE_ok (ps : List JVal) (hnn : ∀ p ∈ ps, p ≠ JVal.null) :
    mapPartsE ps = Except.ok (ps.map partText) := by
  induction ps with
  | nil => rfl
  | cons p rest ih =>
    have hp : p ≠ JVal.null := hnn p (List.mem_cons_self p rest)
    have hrest := ih fun q hq => hnn q (List.mem_cons_of_mem p hq)
    unfold mapPartsE
    rw [partTextE_of_ne_null p hp, hrest]
    rfl

/-- Claim C9: text extraction from an HTTP-success response is NOT
total: when the parsed envelope carries a parts list containing a JSON
null element, the source's plain `p.text` access raises an uncaught
TypeError, so extraction fails on that success body rather than
yielding a string (in particular it does not yield the empty-string
contribution the claim prescribes for a part without a text field);
the total collapse used by the claim would have returned `""` there. -/
theorem c9_extract_total_cex :
    extractTextFromGeminiE (mkEnvelope (mkCandidate (JVal.arr [JVal.null])) []) =
      Except.error () ∧
    (∀ s : String,
      extractTextFromGeminiE (mkEnvelope (mkCandidate (JVal.arr [JVal.null])) []) ≠
        Except.ok s) ∧
    extractTextFromGemini (mkEnvelope (mkCandidate (JVal.arr [JVal.null])) []) = "" := by
  refine ⟨rfl, fun s h => ?_, rfl⟩
  have h2 : (Except.error () : Except Unit String) = Except.ok s := h
  exact Except.noConfusion h2

/-- Claim C9 (amended): text extraction from an HTTP-success response
never fails provided no element of the parts list is JSON null: a null
envelope, a missing or empty candidates list, and absent or non-list
content parts all yield the empty string; a null-free parts list yields
the concatenation of the per-part contributions, where a string text
field contributes itself and a missing text field contributes the empty
string, and on such inputs the faithful model agrees with the total
collapse used by the turn pipeline.  A JSON-null parts element instead
raises an uncaught TypeError, since `p.text` is a plain, not optional,
property access. -/
theorem c9_extract_tolerant_amended (rest ps : List JVal) (s txt : String)
    (hnn : ∀ p ∈ ps, p ≠ JVal.null) :
    extractTextFromGeminiE JVal.null = Except.ok "" ∧
    extractTextFromGeminiE (JVal.obj []) = Except.ok "" ∧
    extractTextFromGeminiE (JVal.obj [("candidates", JVal.arr [])]) = Except.ok "" ∧
    extractTextFromGeminiE (mkEnvelope (JVal.obj []) rest) = Except.ok "" ∧
    extractTextFromGeminiE (mkEnvelope (mkCandidate (JVal.str s)) rest) = Except.ok "" ∧
    extractTextFromGeminiE (mkEnvelope (mkCandidate (JVal.arr ps)) rest) =
      Except.ok (String.join (ps.map partText)) ∧
    extractTextFromGeminiE (mkEnvelope (mkCandidate (JVal.arr ps)) rest) =
      Except.ok (extractTextFromGemini (mkEnvelope (mkCandidate (JVal.arr ps)) rest)) ∧
    partTextE (JVal.obj [("text", JVal.str txt)]) = Except.ok txt ∧
    partTextE (JVal.obj []) = Except.ok "" := by
  have h6 : extractTextFromGeminiE (mkEnvelope (mkCandidate (JVal.arr ps)) rest) =
      Except.ok (String.join (ps.map partText)) := by
    have h0 : extractTextFromGeminiE (mkEnvelope (mkCandidate (JVal.arr ps)) rest) =
        (match mapPartsE ps with
         | Except.error e => Except.error e
         | Except.ok ss => Except.ok (String.join ss)) := rfl
    rw [h0, mapPartsE_ok ps hnn]
  refine ⟨rfl, rfl, rfl, rfl, rfl, h6, h6, ?_, rfl⟩
  by_cases htxt : txt = ""
  · subst htxt; rfl
  · unfold partTextE jFieldPlain lookupField jsOr truthy jsToString
    simp [htxt]

/-- Witness for C9 (amended): a concrete null-free parts list with one
text-bearing part and one part without a text field extracts to the
text field without failing. -/
theorem c9_extract_tolerant_amended_witness :
    (∀ p ∈ [JVal.obj [("text", JVal.str "Hari Om")], JVal.obj []],
      p ≠ JVal.null) ∧
    extractTextFromGeminiE
        (mkEnvelope (mkCandidate
          (JVal.arr [JVal.obj [("text", JVal.str "Hari Om")], JVal.obj []])) []) =
      Except.ok "Hari Om" := by
  have hnn : ∀ p ∈ [JVal.obj [("text", JVal.str "Hari Om")], JVal.obj []],
      p ≠ JVal.null := by
    intro p hp
    rcases List.mem_cons.mp hp with h | hp2
    · subst h; exact fun h => JVal.noConfusion h
    rcases List.mem_cons.mp hp2 with h | hp3
    · subst h; exact fun h => JVal.noConfusion h
    exact absurd hp3 (List.not_mem_nil p)
  refine ⟨hnn, ?_⟩
  have h := (c9_extract_tolerant_amended []
    [JVal.obj [("text", JVal.str "Hari Om")], JVal.obj []] "x" "y" hnn).2.2.2.2.2.1
  rw [h]
  rfl

/-- Claim C10: a 429 whose RetryInfo retryDelay is `"0s"` parses to a
delay of 0, schedules no retry token (the slot is left unchanged),
appends nothing, and produces exactly the same turn outcome as a 429
whose body carries no RetryInfo delay at all. -/
theorem c10_zero_delay_no_retry (env : TurnEnv) (pending0 : Option RetryToken)
    (session : Session) (raw : String) :
    parseRetryDelaySeconds (some retryBody0) = some 0 ∧
    callGuruji { env with gurujiResult := FetchResult.failure 429 (some retryBody0) }
        pending0 session raw =
      callGuruji { env with gurujiResult := FetchResult.failure 429 (some noDelayBody) }
        pending0 session raw ∧
    (callGuruji { env with gurujiResult := FetchResult.failure 429 (some retryBody0) }
        pending0 session raw).pendingRetry = pending0 ∧
    (callGuruji { env with gurujiResult := FetchResult.failure 429 (some retryBody0) }
        pending0 session raw).messages = session.messages := by
  have hparse0 : parseRetryDelaySeconds (some retryBody0) = some 0 := by decide
  have heff : ∀ (sid r : String) (now : Int) (b : Option JVal),
      parseRetryDelaySeconds b = some 0 ∨ parseRetryDelaySeconds b = none →
      gurujiFailureEffects pending0 sid r now 429 b =
        ("Rate limit. Please retry in a minute.", pending0) := by
    intro sid r now b hb
    unfold gurujiFailureEffects
    rw [if_pos rfl]
    rcases hb with hb | hb <;> simp [hb]
  by_cases hkey : env.apiKey = ""
  · have e1 : callGuruji
        { env with gurujiResult := FetchResult.failure 429 (some retryBody0) }
        pending0 session raw =
        { messages := session.messages, pendingRetry := pending0,
          toasts := ["API key not set. Open Settings and save it."],
          interpCall := none, gurujiCall := none, translateCalls := [] } := by
      unfold callGuruji
      rw [if_pos hkey]
    have e2 : callGuruji
        { env with gurujiResult := FetchResult.failure 429 (some noDelayBody) }
        pending0 session raw =
        { messages := session.messages, pendingRetry := pending0,
          toasts := ["API key not set. Open Settings and save it."],
          interpCall := none, gurujiCall := none, translateCalls := [] } := by
      unfold callGuruji
      rw [if_pos hkey]
    exact ⟨hparse0, by rw [e1, e2], by rw [e1], by rw [e1]⟩
  · by_cases hon : env.online = true
    · have h1 := callGuruji_failure
        { env with gurujiResult := FetchResult.failure 429 (some retryBody0) }
        pending0 session raw 429 (some retryBody0) hkey hon rfl
      have h2 := callGuruji_failure
        { env with gurujiResult := FetchResult.failure 429 (some noDelayBody) }
        pending0 session raw 429 (some noDelayBody) hkey hon rfl
      rw [heff session.id raw env.nowMs (some retryBody0) (Or.inl hparse0)] at h1
      rw [heff session.id raw env.nowMs (some noDelayBody) (Or.inr (by decide))] at h2
      have hq : interpretUserQuery
          { env with gurujiResult := FetchResult.failure 429 (some retryBody0) } raw =
          interpretUserQuery
          { env with gurujiResult := FetchResult.failure 429 (some noDelayBody) } raw := rfl
      exact ⟨hparse0, by rw [h1, h2, hq], by rw [h1], by rw [h1]⟩
    · have hoff : env.online = false := by
        cases h : env.online
        · rfl
        · exact absurd h hon
      have e1 : callGuruji
          { env with gurujiResult := FetchResult.failure 429 (some retryBody0) }
          pending0 session raw =
          { messages := session.messages, pendingRetry := pending0,
            toasts := ["You are offline. Message saved locally."],
            interpCall := none, gurujiCall := none, translateCalls := [] } := by
        unfold callGuruji
        rw [if_neg hkey, if_pos hoff]
      have e2 : callGuruji
          { env with gurujiResult := FetchResult.failure 429 (some noDelayBody) }
          pending0 session raw =
          { messages := session.messages, pendingRetry := pending0,
            toasts := ["You are offline. Message saved locally."],
            interpCall := none, gurujiCall := none, translateCalls := [] } := by
        unfold callGuruji
        rw [if_neg hkey, if_pos hoff]
      exact ⟨hparse0, by rw [e1, e2], by rw [e1], by rw [e1]⟩

end BarveGuruji
